import Mathlib

/-!
Shallow embedding of the `lact-schema` crate (`src/lact-schema/src/lib.rs`)
of the LACT GPU-control daemon, together with proofs about its data model:

* equality semantics of `ProfilesInfo`,
* the `From<AmdClocksTableGen>` conversion into `ClocksInfo`,
* the serde wire shapes (adjacent tagging of `ClocksTable`/`ProfileRule`,
  omission of `None` fields under `skip_serializing_none`),
* the `BTreeMap`-backed fan curve and its built-in default,
* `DeviceInfo::info_elements`, and `FanControlMode::from_str`.

Conventions of the embedding:
* Rust `u32`/`u64` become `Nat`, `i32` becomes `Int`.
* Rust `f32`/`f64` values are carried as `ℚ`: the claims under study treat
  the duty ratios purely as ordered data (no float arithmetic occurs), so a
  decidable ordered field is an adequate carrier for them.
* `IndexMap`/`IndexSet` (insertion-ordered maps) become association lists in
  insertion order; `BTreeMap` becomes a key-sorted association list built by
  ordered insertion; `HashMap`/`HashSet` become association lists / lists.
* `Arc<str>` and `Box<str>` become `String`.
* serde serialization is modelled by a `Json` value tree; a serde map is an
  ordered list of key/value pairs.
-/

/-- Model of a JSON value, the target of the serde serializers.
An object is an ordered list of key/value fields, as produced by serde. -/
inductive Json where
  | null : Json
  | bool : Bool → Json
  | num : ℚ → Json
  | str : String → Json
  | arr : List Json → Json
  | obj : List (String × Json) → Json

/-- Field list contributed by an `Option` field under
`#[skip_serializing_none]`: a `None` field produces no field at all. -/
def optField (k : String) : Option Json → List (String × Json)
  | none => []
  | some v => [(k, v)]

/-- Top-level keys of a serialized object (empty for non-objects). -/
def Json.keys : Json → List String
  | .obj fields => fields.map Prod.fst
  | _ => []

/-- Value stored under a top-level key of a serialized object. -/
def Json.getKey : Json → String → Option Json
  | .obj fields, k => fields.lookup k
  | _, _ => none

/-- Rust enum `FanControlMode` (`#[derive(Default)]`, `#[default]` on
`Curve`, `#[serde(rename_all = "snake_case")]`). -/
inductive FanControlMode where
  | Static : FanControlMode
  | Curve : FanControlMode
deriving DecidableEq

/-- Rust `Default::default()` for `FanControlMode`: the `#[default]`
attribute sits on the `Curve` variant. -/
def FanControlMode.default_mode : FanControlMode := .Curve

/-- The snake_case name each variant serializes to under
`#[serde(rename_all = "snake_case")]`. -/
def FanControlMode.wire_name : FanControlMode → String
  | .Static => "static"
  | .Curve => "curve"

/-- Rust `impl FromStr for FanControlMode` (lib.rs:41-51): matches the
exact strings "curve" and "static", anything else is an error. -/
def FanControlMode.from_str (s : String) : Except String FanControlMode :=
  if s = "curve" then .ok .Curve
  else if s = "static" then .ok .Static
  else .error "unknown fan control mode"

/-- Serde serialization of a `FanControlMode` value. -/
def FanControlMode.serialize (m : FanControlMode) : Json :=
  .str m.wire_name

/-- One ordered-insertion step of the `BTreeMap<i32, f32>` model: keeps the
association list strictly sorted by key, replacing the value on a repeated
key, exactly as `BTreeMap::insert` does. -/
def curveInsert (k : Int) (v : ℚ) : List (Int × ℚ) → List (Int × ℚ)
  | [] => [(k, v)]
  | (k', v') :: rest =>
    if k < k' then (k, v) :: (k', v') :: rest
    else if k = k' then (k, v) :: rest
    else (k', v') :: curveInsert k v rest

/-- A `BTreeMap<i32, f32>` built from a sequence of insertions starting
from the empty map (this covers `FromIterator`, used by `.into()` on an
array, which is repeated insertion). -/
def curveOfList (entries : List (Int × ℚ)) : List (Int × ℚ) :=
  entries.foldl (fun m e => curveInsert e.1 e.2 m) []

/-- Rust `type FanCurveMap = BTreeMap<i32, f32>` (lib.rs:53), in its
association-list model. -/
abbrev FanCurveMap := List (Int × ℚ)

/-- Rust `default_fan_curve()` (lib.rs:55-57):
`[(40, 0.3), (50, 0.35), (60, 0.5), (70, 0.75), (80, 1.0)].into()`.
The float literals are carried as the rationals they denote. -/
def default_fan_curve : FanCurveMap :=
  curveOfList [(40, 3/10), (50, 35/100), (60, 1/2), (70, 75/100), (80, 1)]

/-- Serde serialization of a fan curve map: a JSON object whose keys are
the decimal renderings of the temperatures. -/
def serializeFanCurveMap (c : FanCurveMap) : Json :=
  .obj (c.map fun p => (p.1.repr, Json.num p.2))

/-- Rust struct `ProcessProfileRule` (lib.rs:589-594):
`{ name: Arc<str>, args: Option<String> }`, `#[skip_serializing_none]`. -/
structure ProcessProfileRule where
  name : String
  args : Option String
deriving DecidableEq

/-- Rust `impl Default for ProcessProfileRule` (lib.rs:596-603). -/
def ProcessProfileRule.default_value : ProcessProfileRule :=
  { name := "", args := none }

/-- Rust enum `ProfileRule` (lib.rs:575-581):
`Process(ProcessProfileRule)` or `Gamemode(Option<ProcessProfileRule>)`,
with `#[serde(tag = "type", content = "filter", rename_all = "lowercase")]`. -/
inductive ProfileRule where
  | Process : ProcessProfileRule → ProfileRule
  | Gamemode : Option ProcessProfileRule → ProfileRule
deriving DecidableEq

/-- Rust `impl Default for ProfileRule` (lib.rs:583-587). -/
def ProfileRule.default_value : ProfileRule :=
  .Process ProcessProfileRule.default_value

/-- Serde serialization of `ProcessProfileRule`: `name` always present,
`args` omitted when `None` (`#[skip_serializing_none]`). -/
def serializeProcessProfileRule (p : ProcessProfileRule) : Json :=
  .obj ([("name", Json.str p.name)] ++ optField "args" (p.args.map Json.str))

/-- Serde deserialization of `ProcessProfileRule`: `name` is a required
string field; `args` is an optional string field (missing or `null` both
deserialize to `None`, serde's default handling of `Option` fields). -/
def deserializeProcessProfileRule (j : Json) : Option ProcessProfileRule :=
  match j with
  | .obj fields =>
    match fields.lookup "name" with
    | some (.str n) =>
      match fields.lookup "args" with
      | none => some { name := n, args := none }
      | some .null => some { name := n, args := none }
      | some (.str a) => some { name := n, args := some a }
      | some _ => none
    | _ => none
  | _ => none

/-- Serde serialization of `ProfileRule` under
`#[serde(tag = "type", content = "filter", rename_all = "lowercase")]`:
an adjacently tagged object `{"type": <variant>, "filter": <content>}`.
`skip_serializing_none` on the enum does not touch newtype variants, so
`Gamemode(None)` serializes its content as `null`. -/
def serializeProfileRule (r : ProfileRule) : Json :=
  match r with
  | .Process p => .obj [("type", Json.str "process"), ("filter", serializeProcessProfileRule p)]
  | .Gamemode none => .obj [("type", Json.str "gamemode"), ("filter", Json.null)]
  | .Gamemode (some p) =>
    .obj [("type", Json.str "gamemode"), ("filter", serializeProcessProfileRule p)]

/-- Serde deserialization of the adjacently tagged `ProfileRule`: reads the
`type` tag, then deserializes the `filter` content against the selected
variant (`Option<ProcessProfileRule>` accepts `null` as `None`). -/
def deserializeProfileRule (j : Json) : Option ProfileRule :=
  match j with
  | .obj fields =>
    match fields.lookup "type" with
    | some (.str t) =>
      if t = "process" then
        match fields.lookup "filter" with
        | some content => (deserializeProcessProfileRule content).map .Process
        | none => none
      else if t = "gamemode" then
        match fields.lookup "filter" with
        | some .null => some (.Gamemode none)
        | some content => (deserializeProcessProfileRule content).map (fun p => .Gamemode (some p))
        | none => none
      else none
    | _ => none
  | _ => none

/-- Rust struct `ProcessInfo` (lib.rs:615-619):
`{ name: Arc<str>, cmdline: Box<str> }`. -/
structure ProcessInfo where
  name : String
  cmdline : String
deriving DecidableEq

/-- Rust `type ProcessMap = IndexMap<i32, ProcessInfo>` (lib.rs:605), as an
insertion-ordered association list. -/
abbrev ProcessMap := List (Int × ProcessInfo)

/-- Rust struct `ProfileWatcherState` (lib.rs:607-612):
`{ process_list: ProcessMap, gamemode_games: IndexSet<i32>,
process_names_map: HashMap<Arc<str>, HashSet<i32>> }`. -/
structure ProfileWatcherState where
  process_list : ProcessMap
  gamemode_games : List Int
  process_names_map : List (String × List Int)
deriving DecidableEq

/-- Rust struct `ProfilesInfo` (lib.rs:559-565): `profiles` is an
`IndexMap<String, Option<ProfileRule>>` (insertion-ordered), plus
`current_profile`, `auto_switch` and `watcher_state`. -/
structure ProfilesInfo where
  profiles : List (String × Option ProfileRule)
  current_profile : Option String
  auto_switch : Bool
  watcher_state : Option ProfileWatcherState

/-- Rust `impl PartialEq for ProfilesInfo` (lib.rs:567-573): compares
`profiles.as_slice()` (the ordered key/value pairs), `current_profile` and
`auto_switch`; `watcher_state` does not participate. -/
def profilesInfoEq (a b : ProfilesInfo) : Bool :=
  decide (a.profiles = b.profiles)
    && decide (a.current_profile = b.current_profile)
    && (a.auto_switch == b.auto_switch)

/-- AMD overdrive table `ClocksTableGen` of the external `amdgpu_sysfs`
crate (imported at lib.rs:16, not part of this repository). The crate is
outside src/, so the table is modelled abstractly, following the spec's
description of it: an opaque vendor table carrying derived maxima (max
core clock, max memory clock, max voltage) plus raw content for
pass-through writes. The three maxima are arbitrary independent optional
values and `raw` stands for the rest of the table's content, so distinct
tables with equal maxima are representable. -/
structure AmdClocksTableGen where
  max_sclk_value : Option Int
  max_mclk_value : Option Int
  max_sclk_voltage_value : Option Int
  raw : List (String × Int)
deriving DecidableEq

/-- External crate accessor `ClocksTable::get_max_sclk`. -/
def AmdClocksTableGen.get_max_sclk (t : AmdClocksTableGen) : Option Int :=
  t.max_sclk_value

/-- External crate accessor `ClocksTable::get_max_mclk`. -/
def AmdClocksTableGen.get_max_mclk (t : AmdClocksTableGen) : Option Int :=
  t.max_mclk_value

/-- External crate accessor `ClocksTable::get_max_sclk_voltage`. -/
def AmdClocksTableGen.get_max_sclk_voltage (t : AmdClocksTableGen) : Option Int :=
  t.max_sclk_voltage_value

/-- Serialization of the abstract AMD table: its raw content as an object. -/
def serializeAmdClocksTableGen (t : AmdClocksTableGen) : Json :=
  .obj (t.raw.map fun p => (p.1, Json.num p.2))

/-- Rust struct `NvidiaClockOffset` (lib.rs:362-367):
`{ current: i32, min: i32, max: i32 }`. -/
structure NvidiaClockOffset where
  current : Int
  min : Int
  max : Int
deriving DecidableEq

/-- Serde serialization of `NvidiaClockOffset` (no optional fields). -/
def serializeNvidiaClockOffset (o : NvidiaClockOffset) : Json :=
  .obj [("current", Json.num o.current), ("min", Json.num o.min), ("max", Json.num o.max)]

/-- Rust struct `NvidiaClocksTable` (lib.rs:332-347): two
`IndexMap<u32, NvidiaClockOffset>` offset maps with
`#[serde(skip_serializing_if = "IndexMap::is_empty")]`, and four
`Option<(u32, u32)>` ranges under `#[skip_serializing_none]`. -/
structure NvidiaClocksTable where
  gpu_offsets : List (Nat × NvidiaClockOffset)
  mem_offsets : List (Nat × NvidiaClockOffset)
  gpu_locked_clocks : Option (Nat × Nat)
  vram_locked_clocks : Option (Nat × Nat)
  gpu_clock_range : Option (Nat × Nat)
  vram_clock_range : Option (Nat × Nat)
deriving DecidableEq

/-- Serialization of a `(u32, u32)` tuple: a two-element JSON array. -/
def serializePair (p : Nat × Nat) : Json :=
  .arr [Json.num p.1, Json.num p.2]

/-- Serialization of an offsets `IndexMap`: an object keyed by the decimal
rendering of each point index, in insertion order. -/
def serializeOffsetsMap (m : List (Nat × NvidiaClockOffset)) : Json :=
  .obj (m.map fun p => (Nat.repr p.1, serializeNvidiaClockOffset p.2))

/-- Serde serialization of `NvidiaClocksTable`: the two offset maps are
skipped when empty (`skip_serializing_if = "IndexMap::is_empty"`), the
option fields are skipped when `None` (`#[skip_serializing_none]`). -/
def serializeNvidiaClocksTable (t : NvidiaClocksTable) : Json :=
  .obj ((if t.gpu_offsets.isEmpty then [] else [("gpu_offsets", serializeOffsetsMap t.gpu_offsets)])
    ++ (if t.mem_offsets.isEmpty then [] else [("mem_offsets", serializeOffsetsMap t.mem_offsets)])
    ++ optField "gpu_locked_clocks" (t.gpu_locked_clocks.map serializePair)
    ++ optField "vram_locked_clocks" (t.vram_locked_clocks.map serializePair)
    ++ optField "gpu_clock_range" (t.gpu_clock_range.map serializePair)
    ++ optField "vram_clock_range" (t.vram_clock_range.map serializePair))

/-- Rust struct `IntelClocksTable` (lib.rs:350-360): one optional
`(u64, u64)` range and three optional frequency levels, all under
`#[skip_serializing_none]`. -/
structure IntelClocksTable where
  gt_freq : Option (Nat × Nat)
  rpn_freq : Option Nat
  rpe_freq : Option Nat
  rp0_freq : Option Nat
deriving DecidableEq

/-- Serde serialization of `IntelClocksTable`. -/
def serializeIntelClocksTable (t : IntelClocksTable) : Json :=
  .obj (optField "gt_freq" (t.gt_freq.map serializePair)
    ++ optField "rpn_freq" (t.rpn_freq.map fun n => Json.num n)
    ++ optField "rpe_freq" (t.rpe_freq.map fun n => Json.num n)
    ++ optField "rp0_freq" (t.rp0_freq.map fun n => Json.num n))

/-- Rust enum `ClocksTable` (lib.rs:324-330): tagged union of the three
vendor tables, with
`#[serde(tag = "type", content = "value", rename_all = "snake_case")]`. -/
inductive ClocksTable where
  | Amd : AmdClocksTableGen → ClocksTable
  | Nvidia : NvidiaClocksTable → ClocksTable
  | Intel : IntelClocksTable → ClocksTable
deriving DecidableEq

/-- The snake_case tag each `ClocksTable` variant serializes to under
`#[serde(rename_all = "snake_case")]`. -/
def ClocksTable.vendor_tag : ClocksTable → String
  | .Amd _ => "amd"
  | .Nvidia _ => "nvidia"
  | .Intel _ => "intel"

/-- The serialized vendor payload of a `ClocksTable` value. -/
def ClocksTable.vendor_content : ClocksTable → Json
  | .Amd t => serializeAmdClocksTableGen t
  | .Nvidia t => serializeNvidiaClocksTable t
  | .Intel t => serializeIntelClocksTable t

/-- Serde serialization of `ClocksTable` under
`#[serde(tag = "type", content = "value", rename_all = "snake_case")]`:
adjacent tagging emits the tag under "type" and the whole payload nested
under "value". -/
def serializeClocksTable (t : ClocksTable) : Json :=
  match t with
  | .Amd a => .obj [("type", Json.str "amd"), ("value", serializeAmdClocksTableGen a)]
  | .Nvidia n => .obj [("type", Json.str "nvidia"), ("value", serializeNvidiaClocksTable n)]
  | .Intel i => .obj [("type", Json.str "intel"), ("value", serializeIntelClocksTable i)]

/-- Rust struct `ClocksInfo` (lib.rs:315-322): three optional maxima and
the optional vendor table, under `#[skip_serializing_none]`. -/
structure ClocksInfo where
  max_sclk : Option Int
  max_mclk : Option Int
  max_voltage : Option Int
  table : Option ClocksTable
deriving DecidableEq

/-- Rust `impl From<AmdClocksTableGen> for ClocksInfo` (lib.rs:369-381):
derives the three maxima from the table and stores the table itself as the
`Amd` variant. -/
def ClocksInfo.from_amd (table : AmdClocksTableGen) : ClocksInfo :=
  { max_sclk := table.get_max_sclk
    max_mclk := table.get_max_mclk
    max_voltage := table.get_max_sclk_voltage
    table := some (ClocksTable.Amd table) }

/-- Serde serialization of `ClocksInfo` (`#[skip_serializing_none]`). -/
def serializeClocksInfo (c : ClocksInfo) : Json :=
  .obj (optField "max_sclk" (c.max_sclk.map fun n => Json.num n)
    ++ optField "max_mclk" (c.max_mclk.map fun n => Json.num n)
    ++ optField "max_voltage" (c.max_voltage.map fun n => Json.num n)
    ++ optField "table" (c.table.map serializeClocksTable))

/-- Fan limit info `FanInfo` of the external `amdgpu_sysfs` crate
(imported at lib.rs:15, not part of this repository), modelled after the
spec's hardware-limit overrides: a current value plus an optional allowed
range. -/
structure FanInfo where
  current : Nat
  allowed_range : Option (Nat × Nat)
deriving DecidableEq

/-- Serialization of the external `FanInfo` model. -/
def serializeFanInfo (f : FanInfo) : Json :=
  .obj ([("current", Json.num f.current)]
    ++ optField "allowed_range" (f.allowed_range.map serializePair))

/-- Rust struct `PmfwInfo` (lib.rs:455-464): six optional firmware fan
limits under `#[skip_serializing_none]`. -/
structure PmfwInfo where
  acoustic_limit : Option FanInfo
  acoustic_target : Option FanInfo
  target_temp : Option FanInfo
  minimum_pwm : Option FanInfo
  zero_rpm_enable : Option Bool
  zero_rpm_temperature : Option FanInfo
deriving DecidableEq

/-- Serde serialization of `PmfwInfo` (`#[skip_serializing_none]`). -/
def serializePmfwInfo (p : PmfwInfo) : Json :=
  .obj (optField "acoustic_limit" (p.acoustic_limit.map serializeFanInfo)
    ++ optField "acoustic_target" (p.acoustic_target.map serializeFanInfo)
    ++ optField "target_temp" (p.target_temp.map serializeFanInfo)
    ++ optField "minimum_pwm" (p.minimum_pwm.map serializeFanInfo)
    ++ optField "zero_rpm_enable" (p.zero_rpm_enable.map Json.bool)
    ++ optField "zero_rpm_temperature" (p.zero_rpm_temperature.map serializeFanInfo))

/-- Rust struct `FanStats` (lib.rs:437-453): `control_enabled` is a plain
bool, nine optional fields follow, and `pmfw_info` carries
`#[serde(default)]` (which affects deserialization only — it is always
serialized). The whole struct is under `#[skip_serializing_none]`. -/
structure FanStats where
  control_enabled : Bool
  control_mode : Option FanControlMode
  static_speed : Option ℚ
  curve : Option FanCurveMap
  pwm_current : Option Nat
  speed_current : Option Nat
  speed_max : Option Nat
  speed_min : Option Nat
  spindown_delay_ms : Option Nat
  change_threshold : Option Nat
  pmfw_info : PmfwInfo

/-- Serde serialization of `FanStats`: `control_enabled` and `pmfw_info`
always present, every `Option` field omitted when `None`. -/
def serializeFanStats (f : FanStats) : Json :=
  .obj ([("control_enabled", Json.bool f.control_enabled)]
    ++ optField "control_mode" (f.control_mode.map FanControlMode.serialize)
    ++ optField "static_speed" (f.static_speed.map Json.num)
    ++ optField "curve" (f.curve.map serializeFanCurveMap)
    ++ optField "pwm_current" (f.pwm_current.map fun n => Json.num n)
    ++ optField "speed_current" (f.speed_current.map fun n => Json.num n)
    ++ optField "speed_max" (f.speed_max.map fun n => Json.num n)
    ++ optField "speed_min" (f.speed_min.map fun n => Json.num n)
    ++ optField "spindown_delay_ms" (f.spindown_delay_ms.map fun n => Json.num n)
    ++ optField "change_threshold" (f.change_threshold.map fun n => Json.num n)
    ++ [("pmfw_info", serializePmfwInfo f.pmfw_info)])

/-- Rust struct `PciInfo` (lib.rs:411-418): string ids always present,
names optional, `#[skip_serializing_none]`. -/
structure PciInfo where
  vendor_id : String
  vendor : Option String
  model_id : String
  model : Option String
deriving DecidableEq

/-- Rust struct `GpuPciInfo` (lib.rs:88-92). -/
structure GpuPciInfo where
  device_pci_info : PciInfo
  subsystem_pci_info : PciInfo
deriving DecidableEq

/-- Rust struct `LinkInfo` (lib.rs:383-390), `#[skip_serializing_none]`. -/
structure LinkInfo where
  current_width : Option String
  current_speed : Option String
  max_width : Option String
  max_speed : Option String
deriving DecidableEq

/-- Rust struct `VulkanDriverInfo` (lib.rs:402-409),
`#[skip_serializing_none]`. -/
structure VulkanDriverInfo where
  version : Nat
  name : Option String
  info : Option String
  driver_version : Option String
deriving DecidableEq

/-- Rust struct `VulkanInfo` (lib.rs:392-400); the feature/extension
`IndexMap<String, bool>`s are insertion-ordered association lists. -/
structure VulkanInfo where
  device_name : String
  api_version : String
  driver : VulkanDriverInfo
  enabled_layers : List String
  features : List (String × Bool)
  extensions : List (String × Bool)
deriving DecidableEq

/-- Rust struct `NvidiaRopInfo` (lib.rs:293-298). -/
structure NvidiaRopInfo where
  unit_count : Nat
  operations_factor : Nat
  operations_count : Nat
deriving DecidableEq

/-- Rust struct `DrmMemoryInfo` (lib.rs:307-313),
`#[skip_serializing_none]`. -/
structure DrmMemoryInfo where
  cpu_accessible_used : Nat
  cpu_accessible_total : Nat
  resizeable_bar : Option Bool
deriving DecidableEq

/-- Rust struct `IntelDrmInfo` (lib.rs:300-305),
`#[skip_serializing_none]`. -/
structure IntelDrmInfo where
  execution_units : Option Nat
  subslices : Option Nat
deriving DecidableEq

/-- Rust struct `DrmInfo` (lib.rs:267-291), `#[skip_serializing_none]`;
the `intel` field carries `#[serde(flatten)]`. The source field
`vram_clock_ratio: f64` is embedded here as the rational-valued field
`vram_clock_coeff` (its serialized key keeps the source spelling). -/
structure DrmInfo where
  device_name : Option String
  pci_revision_id : Option Nat
  family_name : Option String
  family_id : Option Nat
  asic_name : Option String
  chip_class : Option String
  compute_units : Option Nat
  streaming_multiprocessors : Option Nat
  cuda_cores : Option Nat
  vram_type : Option String
  vram_vendor : Option String
  vram_clock_coeff : ℚ
  vram_bit_width : Option Nat
  vram_max_bw : Option String
  l1_cache_per_cu : Option Nat
  l2_cache : Option Nat
  l3_cache_mb : Option Nat
  rop_info : Option NvidiaRopInfo
  memory_info : Option DrmMemoryInfo
  intel : IntelDrmInfo
deriving DecidableEq

/-- Rust struct `DeviceInfo` (lib.rs:94-103), `#[skip_serializing_none]`. -/
structure DeviceInfo where
  pci_info : Option GpuPciInfo
  vulkan_info : Option VulkanInfo
  driver : String
  vbios_version : Option String
  link_info : LinkInfo
  drm_info : Option DrmInfo
deriving DecidableEq

/-- Temperature sensor reading of the external `amdgpu_sysfs` crate
(imported at lib.rs:19, not part of this repository): current/critical
temperatures, all optional. -/
structure Temperature where
  current : Option ℚ
  crit : Option ℚ
  crit_hyst : Option ℚ
deriving DecidableEq

/-- Performance level enum of the external `amdgpu_sysfs` crate (imported
at lib.rs:17, not part of this repository). -/
inductive PerformanceLevel where
  | Auto : PerformanceLevel
  | Low : PerformanceLevel
  | High : PerformanceLevel
  | Manual : PerformanceLevel
deriving DecidableEq

/-- Rust struct `ClockspeedStats` (lib.rs:466-473). -/
structure ClockspeedStats where
  gpu_clockspeed : Option Nat
  current_gfxclk : Option Nat
  vram_clockspeed : Option Nat
deriving DecidableEq

/-- Rust struct `VoltageStats` (lib.rs:475-480). -/
structure VoltageStats where
  gpu : Option Nat
  northbridge : Option Nat
deriving DecidableEq

/-- Rust struct `VramStats` (lib.rs:482-487). -/
structure VramStats where
  total : Option Nat
  used : Option Nat
deriving DecidableEq

/-- Rust struct `PowerStats` (lib.rs:489-498). -/
structure PowerStats where
  average : Option ℚ
  current : Option ℚ
  cap_current : Option ℚ
  cap_max : Option ℚ
  cap_min : Option ℚ
  cap_default : Option ℚ
deriving DecidableEq

/-- Rust struct `DeviceStats` (lib.rs:420-435); `temps` is a
`HashMap<String, Temperature>` and `throttle_info` a
`BTreeMap<String, Vec<String>>`, both as association lists. -/
structure DeviceStats where
  fan : FanStats
  clockspeed : ClockspeedStats
  voltage : VoltageStats
  vram : VramStats
  power : PowerStats
  temps : List (String × Temperature)
  busy_percent : Option Nat
  performance_level : Option PerformanceLevel
  core_power_state : Option Nat
  memory_power_state : Option Nat
  pcie_power_state : Option Nat
  throttle_info : Option (List (String × List String))

/-- Uppercase hexadecimal digit, as Rust's `{:X}` format uses. -/
def upperHexDigit (n : Nat) : Char :=
  if n < 10 then Char.ofNat (48 + n) else Char.ofNat (55 + n)

/-- Fuel-driven big-endian digit expansion for `upperHex` (the fuel is an
upper bound on the digit count, so `upperHex` itself passes the number). -/
def upperHexCore : Nat → Nat → List Char
  | 0, _ => []
  | fuel + 1, n => if n = 0 then [] else upperHexCore fuel (n / 16) ++ [upperHexDigit (n % 16)]

/-- Rust `format!("{:X}", n)`: uppercase hexadecimal rendering. -/
def upperHex (n : Nat) : String :=
  if n = 0 then "0" else String.mk (upperHexCore n n)

/-- The `gpu_model` string of `DeviceInfo::info_elements`
(lib.rs:116-153): DRM device name, else PCI device model, else "Unknown";
when PCI info is present a `(0xVENDOR:0xMODEL[:0xREV])` suffix is added,
the revision part only when `drm_info` carries a `pci_revision_id`. -/
def DeviceInfo.gpu_model_label (self : DeviceInfo) : String :=
  let base :=
    (match self.drm_info with
      | some drm =>
        match drm.device_name with
        | some n => n
        | none =>
          match self.pci_info with
          | some pci => pci.device_pci_info.model.getD "Unknown"
          | none => "Unknown"
      | none =>
        match self.pci_info with
        | some pci => pci.device_pci_info.model.getD "Unknown"
        | none => "Unknown")
  match self.pci_info with
  | none => base
  | some pci =>
    match self.drm_info with
    | some drm =>
      match drm.pci_revision_id with
      | some rev =>
        base ++ " (0x" ++ pci.device_pci_info.vendor_id ++ ":0x"
          ++ pci.device_pci_info.model_id ++ ":0x" ++ upperHex rev ++ ")"
      | none =>
        base ++ " (0x" ++ pci.device_pci_info.vendor_id ++ ":0x"
          ++ pci.device_pci_info.model_id ++ ")"
    | none =>
      base ++ " (0x" ++ pci.device_pci_info.vendor_id ++ ":0x"
        ++ pci.device_pci_info.model_id ++ ")"

/-- The `card_manufacturer` string of `DeviceInfo::info_elements`
(lib.rs:124-127, 155-159). -/
def DeviceInfo.card_manufacturer_label (self : DeviceInfo) : String :=
  match self.pci_info with
  | none => "Unknown"
  | some pci =>
    (pci.subsystem_pci_info.vendor.getD "Unknown")
      ++ " (0x" ++ pci.subsystem_pci_info.vendor_id ++ ")"

/-- The `card_model` string of `DeviceInfo::info_elements`
(lib.rs:129-132, 161). -/
def DeviceInfo.card_model_label (self : DeviceInfo) : String :=
  match self.pci_info with
  | none => "Unknown"
  | some pci =>
    (pci.subsystem_pci_info.model.getD "Unknown")
      ++ " (0x" ++ pci.subsystem_pci_info.model_id ++ ")"

/-- The optional VRAM-size element (lib.rs:172-180), contributed only when
stats are supplied. -/
def statsElements (stats : Option DeviceStats) : List (String × Option String) :=
  match stats with
  | none => []
  | some s =>
    [("VRAM Size", s.vram.total.map fun size => Nat.repr (size / 1024 / 1024) ++ " MiB")]

/-- The memory-info elements pushed inside the DRM block
(lib.rs:244-254). -/
def memElements (mi : Option DrmMemoryInfo) : List (String × Option String) :=
  match mi with
  | none => []
  | some m =>
    (match m.resizeable_bar with
      | some rebar =>
        [("Resizeable bar", some (if rebar then "Enabled" else "Disabled"))]
      | none => [])
      ++ [("CPU Accessible VRAM", some (Nat.repr (m.cpu_accessible_total / 1024 / 1024)))]

/-- The elements contributed by a present `drm_info` (lib.rs:182-255).
Note that both the "Execution Units" and the "Subslices" rows render
`intel.execution_units` (lib.rs:190-203); `intel.subslices` is not read. -/
def drmElements (d : DrmInfo) : List (String × Option String) :=
  [("GPU Family", d.family_name),
   ("ASIC Name", d.asic_name),
   ("Compute Units", d.compute_units.map Nat.repr),
   ("Execution Units", d.intel.execution_units.map Nat.repr),
   ("Subslices", d.intel.execution_units.map Nat.repr),
   ("Cuda Cores", d.cuda_cores.map Nat.repr),
   ("SM Count", d.streaming_multiprocessors.map Nat.repr),
   ("ROP Count", d.rop_info.map fun rop =>
     Nat.repr rop.operations_count ++ " (" ++ Nat.repr rop.unit_count
       ++ " * " ++ Nat.repr rop.operations_factor ++ ")"),
   ("VRAM Type", d.vram_type),
   ("VRAM Manufacturer", d.vram_vendor),
   ("Theoretical VRAM Bandwidth", d.vram_max_bw),
   ("L1 Cache (Per CU)", d.l1_cache_per_cu.map fun cache => Nat.repr (cache / 1024) ++ " KiB"),
   ("L2 Cache", d.l2_cache.map fun cache => Nat.repr (cache / 1024) ++ " KiB"),
   ("L3 Cache", d.l3_cache_mb.map fun cache => Nat.repr cache ++ " MiB")]
  ++ memElements d.memory_info

/-- The trailing link-speed element (lib.rs:257-261), present only when
both the current link speed and width are known. -/
def linkElements (link : LinkInfo) : List (String × Option String) :=
  match link.current_speed, link.current_width with
  | some speed, some width => [("Link Speed", some (speed ++ " x" ++ width))]
  | _, _ => []

/-- Rust `DeviceInfo::info_elements` (lib.rs:113-264): the five fixed
header rows, then the optional VRAM-size row, the DRM block and the link
row, in source order. Total by construction — no failure path exists. -/
def DeviceInfo.info_elements (self : DeviceInfo) (stats : Option DeviceStats) :
    List (String × Option String) :=
  [("GPU Model", some self.gpu_model_label),
   ("Card Manufacturer", some self.card_manufacturer_label),
   ("Card Model", some self.card_model_label),
   ("Driver Used", some self.driver),
   ("VBIOS Version", self.vbios_version)]
  ++ statsElements stats
  ++ (match self.drm_info with
      | some drm => drmElements drm
      | none => [])
  ++ linkElements self.link_info

/-- Serde serialization of `PciInfo` (`#[skip_serializing_none]`). -/
def serializePciInfo (p : PciInfo) : Json :=
  .obj ([("vendor_id", Json.str p.vendor_id)]
    ++ optField "vendor" (p.vendor.map Json.str)
    ++ [("model_id", Json.str p.model_id)]
    ++ optField "model" (p.model.map Json.str))

/-- Serde serialization of `GpuPciInfo`. -/
def serializeGpuPciInfo (g : GpuPciInfo) : Json :=
  .obj [("device_pci_info", serializePciInfo g.device_pci_info),
    ("subsystem_pci_info", serializePciInfo g.subsystem_pci_info)]

/-- Serde serialization of `LinkInfo` (`#[skip_serializing_none]`). -/
def serializeLinkInfo (l : LinkInfo) : Json :=
  .obj (optField "current_width" (l.current_width.map Json.str)
    ++ optField "current_speed" (l.current_speed.map Json.str)
    ++ optField "max_width" (l.max_width.map Json.str)
    ++ optField "max_speed" (l.max_speed.map Json.str))

/-- Serde serialization of `VulkanDriverInfo`
(`#[skip_serializing_none]`). -/
def serializeVulkanDriverInfo (v : VulkanDriverInfo) : Json :=
  .obj ([("version", Json.num v.version)]
    ++ optField "name" (v.name.map Json.str)
    ++ optField "info" (v.info.map Json.str)
    ++ optField "driver_version" (v.driver_version.map Json.str))

/-- Serde serialization of `VulkanInfo` (no optional fields). -/
def serializeVulkanInfo (v : VulkanInfo) : Json :=
  .obj [("device_name", Json.str v.device_name),
    ("api_version", Json.str v.api_version),
    ("driver", serializeVulkanDriverInfo v.driver),
    ("enabled_layers", Json.arr (v.enabled_layers.map Json.str)),
    ("features", Json.obj (v.features.map fun p => (p.1, Json.bool p.2))),
    ("extensions", Json.obj (v.extensions.map fun p => (p.1, Json.bool p.2)))]

/-- Serde serialization of `NvidiaRopInfo`. -/
def serializeNvidiaRopInfo (r : NvidiaRopInfo) : Json :=
  .obj [("unit_count", Json.num r.unit_count),
    ("operations_factor", Json.num r.operations_factor),
    ("operations_count", Json.num r.operations_count)]

/-- Serde serialization of `DrmMemoryInfo` (`#[skip_serializing_none]`). -/
def serializeDrmMemoryInfo (m : DrmMemoryInfo) : Json :=
  .obj ([("cpu_accessible_used", Json.num m.cpu_accessible_used),
    ("cpu_accessible_total", Json.num m.cpu_accessible_total)]
    ++ optField "resizeable_bar" (m.resizeable_bar.map Json.bool))

/-- Serde serialization of `DrmInfo`: every `Option` field skipped when
`None` (`#[skip_serializing_none]`), the always-present `f64` ratio field
under its source key "vram_clock_ratio", and the `#[serde(flatten)]`
`intel` fields inlined at the end of the object. -/
def serializeDrmInfo (d : DrmInfo) : Json :=
  .obj (optField "device_name" (d.device_name.map Json.str)
    ++ optField "pci_revision_id" (d.pci_revision_id.map fun n => Json.num n)
    ++ optField "family_name" (d.family_name.map Json.str)
    ++ optField "family_id" (d.family_id.map fun n => Json.num n)
    ++ optField "asic_name" (d.asic_name.map Json.str)
    ++ optField "chip_class" (d.chip_class.map Json.str)
    ++ optField "compute_units" (d.compute_units.map fun n => Json.num n)
    ++ optField "streaming_multiprocessors" (d.streaming_multiprocessors.map fun n => Json.num n)
    ++ optField "cuda_cores" (d.cuda_cores.map fun n => Json.num n)
    ++ optField "vram_type" (d.vram_type.map Json.str)
    ++ optField "vram_vendor" (d.vram_vendor.map Json.str)
    ++ [("vram_clock_ratio", Json.num d.vram_clock_coeff)]
    ++ optField "vram_bit_width" (d.vram_bit_width.map fun n => Json.num n)
    ++ optField "vram_max_bw" (d.vram_max_bw.map Json.str)
    ++ optField "l1_cache_per_cu" (d.l1_cache_per_cu.map fun n => Json.num n)
    ++ optField "l2_cache" (d.l2_cache.map fun n => Json.num n)
    ++ optField "l3_cache_mb" (d.l3_cache_mb.map fun n => Json.num n)
    ++ optField "rop_info" (d.rop_info.map serializeNvidiaRopInfo)
    ++ optField "memory_info" (d.memory_info.map serializeDrmMemoryInfo)
    ++ optField "execution_units" (d.intel.execution_units.map fun n => Json.num n)
    ++ optField "subslices" (d.intel.subslices.map fun n => Json.num n))

/-- Serde serialization of `DeviceInfo` (`#[skip_serializing_none]`). -/
def serializeDeviceInfo (d : DeviceInfo) : Json :=
  .obj (optField "pci_info" (d.pci_info.map serializeGpuPciInfo)
    ++ optField "vulkan_info" (d.vulkan_info.map serializeVulkanInfo)
    ++ [("driver", Json.str d.driver)]
    ++ optField "vbios_version" (d.vbios_version.map Json.str)
    ++ [("link_info", serializeLinkInfo d.link_info)]
    ++ optField "drm_info" (d.drm_info.map serializeDrmInfo))



/-- Every entry of a `curveInsert` result either bears the inserted key or
was already in the map. -/
theorem mem_curveInsert {p : Int × ℚ} {k : Int} {v : ℚ} {l : List (Int × ℚ)}
    (h : p ∈ curveInsert k v l) : p.1 = k ∨ p ∈ l := by
  induction l with
  | nil =>
    simp [curveInsert] at h
    simp [h]
  | cons hd tl ih =>
    obtain ⟨k', v'⟩ := hd
    simp only [curveInsert] at h
    by_cases h1 : k < k'
    · rw [if_pos h1] at h
      rcases List.mem_cons.mp h with h | h
      · rw [h]
        exact Or.inl rfl
      · exact Or.inr h
    · rw [if_neg h1] at h
      by_cases h2 : k = k'
      · rw [if_pos h2] at h
        rcases List.mem_cons.mp h with h | h
        · rw [h]
          exact Or.inl rfl
        · exact Or.inr (List.mem_cons_of_mem _ h)
      · rw [if_neg h2] at h
        rcases List.mem_cons.mp h with h | h
        · exact Or.inr (h ▸ List.mem_cons_self _ _)
        · rcases ih h with h' | h'
          · exact Or.inl h'
          · exact Or.inr (List.mem_cons_of_mem _ h')

/-- `curveInsert` preserves strict key-sortedness. -/
theorem curveInsert_pairwise (k : Int) (v : ℚ) {l : List (Int × ℚ)}
    (h : l.Pairwise (fun p q => p.1 < q.1)) :
    (curveInsert k v l).Pairwise (fun p q => p.1 < q.1) := by
  induction l with
  | nil => simp [curveInsert]
  | cons hd tl ih =>
    obtain ⟨k', v'⟩ := hd
    rw [List.pairwise_cons] at h
    obtain ⟨hhd, htl⟩ := h
    simp only [curveInsert]
    by_cases h1 : k < k'
    · rw [if_pos h1]
      refine List.Pairwise.cons ?_ (List.Pairwise.cons hhd htl)
      intro p hp
      rcases List.mem_cons.mp hp with hp | hp
      · rw [hp]
        exact h1
      · exact lt_trans h1 (hhd p hp)
    · rw [if_neg h1]
      by_cases h2 : k = k'
      · rw [if_pos h2]
        refine List.Pairwise.cons ?_ htl
        intro p hp
        rw [h2]
        exact hhd p hp
      · rw [if_neg h2]
        refine List.Pairwise.cons ?_ (ih htl)
        intro p hp
        have hk : k' < k := by omega
        rcases mem_curveInsert hp with h' | h'
        · omega
        · exact hhd p h'

/-- Every map built by a sequence of insertions on top of a strictly
key-sorted accumulator is strictly key-sorted. -/
theorem curveOfList_pairwise_from (entries : List (Int × ℚ)) :
    ∀ acc : List (Int × ℚ), acc.Pairwise (fun p q => p.1 < q.1) →
      (entries.foldl (fun m e => curveInsert e.1 e.2 m) acc).Pairwise
        (fun p q => p.1 < q.1) := by
  induction entries with
  | nil => intro acc h; simpa using h
  | cons e tl ih =>
    intro acc h
    exact ih (curveInsert e.1 e.2 acc) (curveInsert_pairwise e.1 e.2 h)

/-- C1: `ProfilesInfo` equality (`impl PartialEq`, lib.rs:567-573) is
determined exclusively by the ordered `profiles` mapping,
`current_profile` and `auto_switch`: two values compare equal exactly when
they agree on those three fields, so the `watcher_state` field can never
influence the comparison in either direction. -/
theorem profilesInfo_eq_iff (a b : ProfilesInfo) :
    profilesInfoEq a b = true ↔
      (a.profiles = b.profiles ∧ a.current_profile = b.current_profile ∧
        a.auto_switch = b.auto_switch) := by
  simp [profilesInfoEq, Bool.and_eq_true, decide_eq_true_eq, beq_iff_eq, and_assoc]

/-- C2: the `From<AmdClocksTableGen>` conversion (lib.rs:369-381) sets the
three maxima of the resulting `ClocksInfo` to exactly the accessor values
of the given table and stores that same table, unmodified, as the `Amd`
variant in the `table` field. -/
theorem clocksInfo_from_amd_spec (t : AmdClocksTableGen) :
    (ClocksInfo.from_amd t).max_sclk = t.get_max_sclk ∧
    (ClocksInfo.from_amd t).max_mclk = t.get_max_mclk ∧
    (ClocksInfo.from_amd t).max_voltage = t.get_max_sclk_voltage ∧
    (ClocksInfo.from_amd t).table = some (ClocksTable.Amd t) :=
  ⟨rfl, rfl, rfl, rfl⟩

/-- C3: every serialized `ClocksTable` (lib.rs:324-330, adjacent tagging)
is an object with exactly the keys "type" and "value": the "type" key
holds the vendor tag (one of "amd", "nvidia", "intel") and the entire
vendor payload sits nested under "value", so no vendor payload field
appears at the top level. (That exactly one vendor variant is populated
per value is inherent in the enum, modelled as an inductive with exactly
one constructor applied.) -/
theorem clocksTable_wire_tagged (t : ClocksTable) :
    serializeClocksTable t =
      Json.obj [("type", Json.str t.vendor_tag), ("value", t.vendor_content)] ∧
    (t.vendor_tag = "amd" ∨ t.vendor_tag = "nvidia" ∨ t.vendor_tag = "intel") ∧
    (serializeClocksTable t).keys = ["type", "value"] := by
  cases t with
  | Amd a => exact ⟨rfl, Or.inl rfl, rfl⟩
  | Nvidia n => exact ⟨rfl, Or.inr (Or.inl rfl), rfl⟩
  | Intel i => exact ⟨rfl, Or.inr (Or.inr rfl), rfl⟩


/-- C4: however a `FanCurveMap` (`BTreeMap<i32, f32>`, lib.rs:53) is built
by insertions, its iteration order lists the temperature keys strictly
ascending, and in particular each whole-degree temperature appears at most
once; monotone non-decrease of the duty values, on the other hand, is not
enforced by the type — a map whose duties decrease is constructible. -/
theorem fanCurveMap_keys_sorted :
    (∀ entries : List (Int × ℚ),
      List.Chain' (fun p q => p.1 < q.1) (curveOfList entries)) ∧
    (∀ entries : List (Int × ℚ), ((curveOfList entries).map Prod.fst).Nodup) ∧
    ¬ (∀ entries : List (Int × ℚ),
      List.Chain' (fun p q => p.2 ≤ q.2) (curveOfList entries)) := by
  have hpw : ∀ entries : List (Int × ℚ),
      (curveOfList entries).Pairwise (fun p q => p.1 < q.1) :=
    fun entries => curveOfList_pairwise_from entries [] (by simp)
  refine ⟨fun entries => (hpw entries).chain', fun entries => ?_, fun h => ?_⟩
  · have hne := (hpw entries).imp (fun h => ne_of_lt h)
    simpa [List.Nodup, List.pairwise_map] using hne
  · have h2 : List.Chain' (fun p q : Int × ℚ => p.2 ≤ q.2) [(40, 1), (50, 0)] :=
      h [(40, 1), (50, 0)]
    rw [List.chain'_cons] at h2
    have hlt : ¬ ((1 : ℚ) ≤ 0) := by norm_num
    exact hlt h2.1

/-- C6: serializing any `ProfileRule` (a `Process` rule with name and
optional argument filter, or a `Gamemode` rule with an optional nested
`Process` filter; lib.rs:575-603) and deserializing the result yields the
original value, so persisted profile configuration round-trips through the
same shapes used internally without loss. -/
theorem profileRule_roundtrip (r : ProfileRule) :
    deserializeProfileRule (serializeProfileRule r) = some r := by
  cases r with
  | Process p =>
    obtain ⟨n, a⟩ := p
    cases a <;> rfl
  | Gamemode o =>
    cases o with
    | none => rfl
    | some p =>
      obtain ⟨n, a⟩ := p
      cases a <;> rfl

/-- C7: the built-in default fan curve (lib.rs:55-57) is exactly
`{40 → 0.3, 50 → 0.35, 60 → 0.5, 70 → 0.75, 80 → 1.0}` (float literals
carried as the rationals they denote); every duty ratio in it lies in
`[0, 1]`; the duties are monotonically non-decreasing with temperature;
and the `Default` instance of `FanControlMode` is `Curve`. -/
theorem default_fan_curve_spec :
    default_fan_curve =
      [(40, 3/10), (50, 35/100), (60, 1/2), (70, 75/100), (80, 1)] ∧
    (∀ p ∈ default_fan_curve, 0 ≤ p.2 ∧ p.2 ≤ 1) ∧
    List.Chain' (fun p q => p.2 ≤ q.2) default_fan_curve ∧
    FanControlMode.default_mode = FanControlMode.Curve := by
  have hlist : default_fan_curve =
      [(40, 3/10), (50, 35/100), (60, 1/2), (70, 75/100), (80, 1)] := rfl
  refine ⟨hlist, ?_, ?_, rfl⟩
  · intro p hp
    rw [hlist] at hp
    simp only [List.mem_cons, List.not_mem_nil, or_false] at hp
    rcases hp with rfl | rfl | rfl | rfl | rfl <;> norm_num
  · rw [hlist]
    norm_num [List.chain'_cons]

/-- C7 witness: the bounds clause of `default_fan_curve_spec` applied at
the concrete first entry of the curve. -/
theorem default_fan_curve_spec_witness :
    0 ≤ ((40 : Int), (3/10 : ℚ)).2 ∧ ((40 : Int), (3/10 : ℚ)).2 ≤ 1 :=
  default_fan_curve_spec.2.1 (40, 3/10) (by rw [default_fan_curve_spec.1]; simp)

/-- C10: `FanControlMode::from_str` (lib.rs:41-51) accepts exactly the two
snake_case serialized names: "curve" parses to `Curve`, "static" parses to
`Static`, every other string (capitalized or padded variants included) is
an error; consequently parsing the serialized name of any mode returns
that same mode. -/
theorem fanControlMode_from_str_spec :
    FanControlMode.from_str "curve" = Except.ok FanControlMode.Curve ∧
    FanControlMode.from_str "static" = Except.ok FanControlMode.Static ∧
    (∀ s : String, s ≠ "curve" → s ≠ "static" →
      FanControlMode.from_str s = Except.error "unknown fan control mode") ∧
    (∀ m : FanControlMode, FanControlMode.from_str m.wire_name = Except.ok m) := by
  refine ⟨rfl, rfl, ?_, ?_⟩
  · intro s h1 h2
    simp [FanControlMode.from_str, h1, h2]
  · intro m
    cases m <;> rfl

/-- C10 witness: the rejection clause applied at the concrete capitalized
input "Curve". -/
theorem fanControlMode_from_str_witness :
    FanControlMode.from_str "Curve" = Except.error "unknown fan control mode" :=
  fanControlMode_from_str_spec.2.2.1 "Curve" (by decide) (by decide)

/-- Membership in the keys contributed by a `skip_serializing_none`
field: present exactly when the key matches and the field is `Some`. -/
theorem mem_keys_optField (k k' : String) (v : Option Json) :
    (k ∈ (optField k' v).map Prod.fst) ↔ (k = k' ∧ v.isSome = true) := by
  cases v <;> simp [optField]

/-- Binding an option through `some ∘ g` preserves `isSome`. -/
theorem isSome_bind_some {α β : Type} (o : Option α) (g : α → β) :
    (o.bind fun a => some (g a)).isSome = o.isSome := by
  cases o <;> rfl

/-- Membership in the keys contributed by a
`skip_serializing_if = "IndexMap::is_empty"` field. -/
theorem mem_keys_emptyGuard (k k' : String) (b : Bool) (j : Json) :
    (k ∈ (if b then ([] : List (String × Json)) else [(k', j)]).map Prod.fst) ↔
      (b = false ∧ k = k') := by
  cases b <;> simp

/-- Key presence in a serialized `ClocksInfo`: each optional field appears
exactly when it is `Some`. -/
theorem serializeClocksInfo_keys (c : ClocksInfo) :
    ("max_sclk" ∈ (serializeClocksInfo c).keys ↔ c.max_sclk.isSome = true) ∧
    ("max_mclk" ∈ (serializeClocksInfo c).keys ↔ c.max_mclk.isSome = true) ∧
    ("max_voltage" ∈ (serializeClocksInfo c).keys ↔ c.max_voltage.isSome = true) ∧
    ("table" ∈ (serializeClocksInfo c).keys ↔ c.table.isSome = true) := by
  refine ⟨?_, ?_, ?_, ?_⟩ <;>
  · simp only [serializeClocksInfo, Json.keys, List.map_append, List.mem_append,
      mem_keys_optField, List.map_cons, List.map_nil, List.mem_cons, List.not_mem_nil]
    simp [isSome_bind_some]

/-- Key presence in a serialized `NvidiaClocksTable`: the offset maps
appear exactly when non-empty, the optional ranges exactly when `Some`. -/
theorem serializeNvidiaClocksTable_keys (t : NvidiaClocksTable) :
    ("gpu_offsets" ∈ (serializeNvidiaClocksTable t).keys ↔ t.gpu_offsets ≠ []) ∧
    ("mem_offsets" ∈ (serializeNvidiaClocksTable t).keys ↔ t.mem_offsets ≠ []) ∧
    ("gpu_locked_clocks" ∈ (serializeNvidiaClocksTable t).keys ↔ t.gpu_locked_clocks.isSome = true) ∧
    ("vram_locked_clocks" ∈ (serializeNvidiaClocksTable t).keys ↔ t.vram_locked_clocks.isSome = true) ∧
    ("gpu_clock_range" ∈ (serializeNvidiaClocksTable t).keys ↔ t.gpu_clock_range.isSome = true) ∧
    ("vram_clock_range" ∈ (serializeNvidiaClocksTable t).keys ↔ t.vram_clock_range.isSome = true) := by
  refine ⟨?_, ?_, ?_, ?_, ?_, ?_⟩ <;>
  · simp only [serializeNvidiaClocksTable, Json.keys, List.map_append, List.mem_append,
      mem_keys_optField, mem_keys_emptyGuard, List.map_cons, List.map_nil, List.mem_cons,
      List.not_mem_nil]
    simp [isSome_bind_some, List.isEmpty_iff]

/-- Key presence in a serialized `FanStats`: every optional field appears
exactly when it is `Some`; `control_enabled` and `pmfw_info` are always
present. -/
theorem serializeFanStats_keys (f : FanStats) :
    ("control_mode" ∈ (serializeFanStats f).keys ↔ f.control_mode.isSome = true) ∧
    ("static_speed" ∈ (serializeFanStats f).keys ↔ f.static_speed.isSome = true) ∧
    ("curve" ∈ (serializeFanStats f).keys ↔ f.curve.isSome = true) ∧
    ("pwm_current" ∈ (serializeFanStats f).keys ↔ f.pwm_current.isSome = true) ∧
    ("speed_current" ∈ (serializeFanStats f).keys ↔ f.speed_current.isSome = true) ∧
    ("speed_max" ∈ (serializeFanStats f).keys ↔ f.speed_max.isSome = true) ∧
    ("speed_min" ∈ (serializeFanStats f).keys ↔ f.speed_min.isSome = true) ∧
    ("spindown_delay_ms" ∈ (serializeFanStats f).keys ↔ f.spindown_delay_ms.isSome = true) ∧
    ("change_threshold" ∈ (serializeFanStats f).keys ↔ f.change_threshold.isSome = true) ∧
    "control_enabled" ∈ (serializeFanStats f).keys ∧
    "pmfw_info" ∈ (serializeFanStats f).keys := by
  refine ⟨?_, ?_, ?_, ?_, ?_, ?_, ?_, ?_, ?_, ?_, ?_⟩ <;>
  · simp only [serializeFanStats, Json.keys, List.map_append, List.mem_append,
      mem_keys_optField, List.map_cons, List.map_nil, List.mem_cons, List.not_mem_nil]
    simp [isSome_bind_some]

/-- Key presence in a serialized `DeviceInfo`: each optional field appears
exactly when it is `Some`. -/
theorem serializeDeviceInfo_keys (d : DeviceInfo) :
    ("pci_info" ∈ (serializeDeviceInfo d).keys ↔ d.pci_info.isSome = true) ∧
    ("vulkan_info" ∈ (serializeDeviceInfo d).keys ↔ d.vulkan_info.isSome = true) ∧
    ("vbios_version" ∈ (serializeDeviceInfo d).keys ↔ d.vbios_version.isSome = true) ∧
    ("drm_info" ∈ (serializeDeviceInfo d).keys ↔ d.drm_info.isSome = true) := by
  refine ⟨?_, ?_, ?_, ?_⟩ <;>
  · simp only [serializeDeviceInfo, Json.keys, List.map_append, List.mem_append,
      mem_keys_optField, List.map_cons, List.map_nil, List.mem_cons, List.not_mem_nil]
    simp [isSome_bind_some]

/-- C5: for every value of the optional-field response types `ClocksInfo`,
`NvidiaClocksTable`, `FanStats` and `DeviceInfo`, serialization omits each
`None` field entirely (its key does not appear in the output at all, so no
`null` or other placeholder is emitted for it), and for
`NvidiaClocksTable` the `gpu_offsets`/`mem_offsets` mappings are also
omitted exactly when empty. -/
theorem none_fields_serialized_as_absent :
    (∀ c : ClocksInfo,
      ("max_sclk" ∈ (serializeClocksInfo c).keys ↔ c.max_sclk.isSome = true) ∧
      ("max_mclk" ∈ (serializeClocksInfo c).keys ↔ c.max_mclk.isSome = true) ∧
      ("max_voltage" ∈ (serializeClocksInfo c).keys ↔ c.max_voltage.isSome = true) ∧
      ("table" ∈ (serializeClocksInfo c).keys ↔ c.table.isSome = true)) ∧
    (∀ t : NvidiaClocksTable,
      ("gpu_offsets" ∈ (serializeNvidiaClocksTable t).keys ↔ t.gpu_offsets ≠ []) ∧
      ("mem_offsets" ∈ (serializeNvidiaClocksTable t).keys ↔ t.mem_offsets ≠ []) ∧
      ("gpu_locked_clocks" ∈ (serializeNvidiaClocksTable t).keys ↔ t.gpu_locked_clocks.isSome = true) ∧
      ("vram_locked_clocks" ∈ (serializeNvidiaClocksTable t).keys ↔ t.vram_locked_clocks.isSome = true) ∧
      ("gpu_clock_range" ∈ (serializeNvidiaClocksTable t).keys ↔ t.gpu_clock_range.isSome = true) ∧
      ("vram_clock_range" ∈ (serializeNvidiaClocksTable t).keys ↔ t.vram_clock_range.isSome = true)) ∧
    (∀ f : FanStats,
      ("control_mode" ∈ (serializeFanStats f).keys ↔ f.control_mode.isSome = true) ∧
      ("static_speed" ∈ (serializeFanStats f).keys ↔ f.static_speed.isSome = true) ∧
      ("curve" ∈ (serializeFanStats f).keys ↔ f.curve.isSome = true) ∧
      ("pwm_current" ∈ (serializeFanStats f).keys ↔ f.pwm_current.isSome = true) ∧
      ("speed_current" ∈ (serializeFanStats f).keys ↔ f.speed_current.isSome = true) ∧
      ("speed_max" ∈ (serializeFanStats f).keys ↔ f.speed_max.isSome = true) ∧
      ("speed_min" ∈ (serializeFanStats f).keys ↔ f.speed_min.isSome = true) ∧
      ("spindown_delay_ms" ∈ (serializeFanStats f).keys ↔ f.spindown_delay_ms.isSome = true) ∧
      ("change_threshold" ∈ (serializeFanStats f).keys ↔ f.change_threshold.isSome = true) ∧
      "control_enabled" ∈ (serializeFanStats f).keys ∧
      "pmfw_info" ∈ (serializeFanStats f).keys) ∧
    (∀ d : DeviceInfo,
      ("pci_info" ∈ (serializeDeviceInfo d).keys ↔ d.pci_info.isSome = true) ∧
      ("vulkan_info" ∈ (serializeDeviceInfo d).keys ↔ d.vulkan_info.isSome = true) ∧
      ("vbios_version" ∈ (serializeDeviceInfo d).keys ↔ d.vbios_version.isSome = true) ∧
      ("drm_info" ∈ (serializeDeviceInfo d).keys ↔ d.drm_info.isSome = true)) :=
  ⟨serializeClocksInfo_keys, serializeNvidiaClocksTable_keys,
    serializeFanStats_keys, serializeDeviceInfo_keys⟩

/-- C8: `DeviceInfo::info_elements` (lib.rs:113-264) is total (it is a
plain function in this embedding — the source has no failure path, every
absent optional input renders as a `None` value or an omitted row, never
an error) and its first five rows are always, in order, "GPU Model",
"Card Manufacturer", "Card Model", "Driver Used" and "VBIOS Version"; the
fifth row carries the optional `vbios_version` input verbatim, so an
absent VBIOS version yields a `None`-valued pair. -/
theorem info_elements_header (info : DeviceInfo) (stats : Option DeviceStats) :
    ((DeviceInfo.info_elements info stats).take 5).map Prod.fst =
      ["GPU Model", "Card Manufacturer", "Card Model", "Driver Used", "VBIOS Version"] ∧
    ((DeviceInfo.info_elements info stats).drop 4).head? =
      some ("VBIOS Version", info.vbios_version) :=
  ⟨rfl, rfl⟩

/-- Replace the `intel.subslices` field of a device's DRM info, leaving
every other field untouched (identity when `drm_info` is absent). -/
def DeviceInfo.with_subslices (self : DeviceInfo) (s : Option Nat) : DeviceInfo :=
  { self with
    drm_info := self.drm_info.map fun d =>
      { d with intel := { d.intel with subslices := s } } }

/-- C9: whenever `drm_info` is present, `info_elements` renders both an
"Execution Units" row and a "Subslices" row and both carry the rendering
of `intel.execution_units` (lib.rs:190-203), so their values are always
identical; the `intel.subslices` field is never read — changing it leaves
the output of `info_elements` unchanged for every input. -/
theorem info_elements_subslices (info : DeviceInfo) (stats : Option DeviceStats)
    (drm : DrmInfo) (h : info.drm_info = some drm) :
    ("Execution Units", drm.intel.execution_units.map Nat.repr) ∈
      DeviceInfo.info_elements info stats ∧
    ("Subslices", drm.intel.execution_units.map Nat.repr) ∈
      DeviceInfo.info_elements info stats ∧
    (∀ s : Option Nat,
      DeviceInfo.info_elements (info.with_subslices s) stats =
        DeviceInfo.info_elements info stats) := by
  obtain ⟨pi, vi, dr, vb, li, di⟩ := info
  simp only at h
  subst h
  refine ⟨?_, ?_, ?_⟩
  · simp [DeviceInfo.info_elements, drmElements]
  · simp [DeviceInfo.info_elements, drmElements]
  · intro s
    obtain ⟨dn, pr, fn, fi, an, cc, cu, sm, cr, vt, vv, vr, vw, vm, l1, l2, l3, ri, mi, il⟩ := drm
    obtain ⟨eu, sl⟩ := il
    rfl

/-- Concrete DRM info used to witness `info_elements_subslices`. -/
def drmW : DrmInfo :=
  { device_name := none
    pci_revision_id := none
    family_name := none
    family_id := none
    asic_name := none
    chip_class := none
    compute_units := none
    streaming_multiprocessors := none
    cuda_cores := none
    vram_type := none
    vram_vendor := none
    vram_clock_coeff := 1
    vram_bit_width := none
    vram_max_bw := none
    l1_cache_per_cu := none
    l2_cache := none
    l3_cache_mb := none
    rop_info := none
    memory_info := none
    intel := { execution_units := some 8, subslices := some 4 } }

/-- Concrete device info used to witness `info_elements_subslices`. -/
def devW : DeviceInfo :=
  { pci_info := none
    vulkan_info := none
    driver := "xe"
    vbios_version := none
    link_info := { current_width := none, current_speed := none, max_width := none, max_speed := none }
    drm_info := some drmW }

/-- C9 witness: `info_elements_subslices` applied to the concrete device
`devW`, discharging its `drm_info` hypothesis by evaluation. -/
theorem info_elements_subslices_witness :
    ("Subslices", Option.map Nat.repr (some 8)) ∈
      DeviceInfo.info_elements devW none :=
  (info_elements_subslices devW none drmW rfl).2.1
